import Mathlib

/-!
Shallow embedding of the RBAC-to-permission-graph compiler of the
baton-kubernetes connector (package `connector`), together with proofs of
the specification claims about it.

Go slices become `List`, Go maps become association lists, `error` returns
become `Except String`, and the `*v2.Resource` / `*v2.ResourceId` protobuf
types are modelled by the fields the connector actually reads (the id pair).
Each definition mirrors one Go function of the source and keeps its name.
-/

namespace BatonK8s

/-- Mirrors `v2.ResourceType`: only the `Id` field is read by the logic
under verification. -/
structure ResourceType where
  id : String
deriving DecidableEq

/-- Mirrors `v2.ResourceId` (`ResourceType` tag plus the opaque resource key). -/
structure ResourceId where
  resourceType : String
  resource : String
deriving DecidableEq

/-- Mirrors a `v2.Grant` as built by `grant.NewGrant(resource, entitlementName,
principal)`: an entitlement named `entName` on `resource`, held by `principal`. -/
structure Grant where
  resource : ResourceId
  entName : String
  principal : ResourceId
deriving DecidableEq

/-- Mirrors `grant.NewGrant` restricted to the fields the connector sets. -/
def NewGrant (resource : ResourceId) (entName : String) (principal : ResourceId) : Grant :=
  ⟨resource, entName, principal⟩

/-- Mirrors `rbacv1.Subject`. The Go field `Namespace` is called `ns` here
because `namespace` is a Lean keyword. -/
structure Subject where
  kind : String
  name : String
  ns : String
  apiGroup : String
deriving DecidableEq

/-- Mirrors `rbacv1.PolicyRule`. -/
structure PolicyRule where
  apiGroups : List String
  resources : List String
  resourceNames : List String
  verbs : List String
  nonResourceURLs : List String
deriving DecidableEq

/-- Mirrors `rbacv1.RoleRef`. -/
structure RoleRef where
  kind : String
  name : String
deriving DecidableEq

/-- Mirrors `rbacv1.RoleBinding` (namespace, subjects and role reference are
the fields the connector reads). -/
structure RoleBinding where
  ns : String
  subjects : List Subject
  roleRef : RoleRef
deriving DecidableEq

/-- Mirrors `rbacv1.ClusterRoleBinding`. -/
structure ClusterRoleBinding where
  subjects : List Subject
  roleRef : RoleRef
deriving DecidableEq

/-! Resource type constants from `connector.go` (ids as in the source). -/

def resourceTypeNamespace : ResourceType := ⟨"namespace"⟩
def resourceTypeServiceAccount : ResourceType := ⟨"service_account"⟩
def resourceTypeRole : ResourceType := ⟨"role"⟩
def resourceTypeClusterRole : ResourceType := ⟨"cluster_role"⟩
def resourceTypeSecret : ResourceType := ⟨"secret"⟩
def resourceTypeConfigMap : ResourceType := ⟨"configmap"⟩
def resourceTypeNode : ResourceType := ⟨"node"⟩
def resourceTypePod : ResourceType := ⟨"pod"⟩
def resourceTypeDeployment : ResourceType := ⟨"deployment"⟩
def resourceTypeStatefulSet : ResourceType := ⟨"statefulset"⟩
def resourceTypeDaemonSet : ResourceType := ⟨"daemonset"⟩
def resourceTypeKubeUser : ResourceType := ⟨"kube_user"⟩
def resourceTypeKubeGroup : ResourceType := ⟨"kube_group"⟩
def resourceTypeBinding : ResourceType := ⟨"binding"⟩

/-- Mirrors `mapSubjectToPrincipalID` (common.go): converts a Kubernetes
Subject to a Baton ResourceId, inheriting `defaultNamespace` for a
ServiceAccount subject with an empty namespace. -/
def mapSubjectToPrincipalID (subject : Subject) (defaultNamespace : String) :
    Except String ResourceId :=
  if subject.kind = "ServiceAccount" then
    if subject.ns = "" then
      if defaultNamespace = "" then
        .error "service account subject must specify a namespace"
      else
        .ok ⟨resourceTypeServiceAccount.id, defaultNamespace ++ "/" ++ subject.name⟩
    else
      .ok ⟨resourceTypeServiceAccount.id, subject.ns ++ "/" ++ subject.name⟩
  else if subject.kind = "User" then
    .ok ⟨resourceTypeKubeUser.id, subject.name⟩
  else if subject.kind = "Group" then
    .ok ⟨resourceTypeKubeGroup.id, subject.name⟩
  else
    .error ("unsupported subject kind: " ++ subject.kind)

/-- Mirrors `mapKubeResourceToBatonType` (secret.go role document): maps an
(API group, resource kind) pair to a Baton resource type, `none` meaning no
mapping. The Go `switch` fallthrough cannot reach a later API-group branch
because the group guards are mutually exclusive, so each group's default is
`none` directly. -/
def mapKubeResourceToBatonType (apiGroup : String) (resource : String) :
    Option ResourceType :=
  if apiGroup = "" ∨ apiGroup = "core" then
    if resource = "pods" ∨ resource = "pod" then some resourceTypePod
    else if resource = "namespaces" ∨ resource = "namespace" then some resourceTypeNamespace
    else if resource = "services" ∨ resource = "service" then none
    else if resource = "configmaps" ∨ resource = "configmap" then some resourceTypeConfigMap
    else if resource = "secrets" ∨ resource = "secret" then some resourceTypeSecret
    else if resource = "serviceaccounts" ∨ resource = "serviceaccount" then
      some resourceTypeServiceAccount
    else if resource = "nodes" ∨ resource = "node" then some resourceTypeNode
    else if resource = "users" ∨ resource = "user" then some resourceTypeKubeUser
    else if resource = "groups" ∨ resource = "group" then some resourceTypeKubeGroup
    else none
  else if apiGroup = "apps" ∨ apiGroup = "apps/v1" then
    if resource = "deployments" ∨ resource = "deployment" then some resourceTypeDeployment
    else if resource = "statefulsets" ∨ resource = "statefulset" then
      some resourceTypeStatefulSet
    else if resource = "daemonsets" ∨ resource = "daemonset" then some resourceTypeDaemonSet
    else none
  else if apiGroup = "rbac.authorization.k8s.io" ∨ apiGroup = "rbac.authorization.k8s.io/v1" then
    if resource = "roles" ∨ resource = "role" then some resourceTypeRole
    else if resource = "clusterroles" ∨ resource = "clusterrole" then some resourceTypeClusterRole
    else if resource = "rolebindings" ∨ resource = "rolebinding" then some resourceTypeBinding
    else if resource = "clusterrolebindings" ∨ resource = "clusterrolebinding" then
      some resourceTypeBinding
    else none
  else if apiGroup = "user.openshift.io" ∨ apiGroup = "user.openshift.io/v1" then
    if resource = "users" ∨ resource = "user" then some resourceTypeKubeUser
    else if resource = "groups" ∨ resource = "group" then some resourceTypeKubeGroup
    else none
  else
    none

/-- Mirrors the `namespacedResourceTypes` map (secret.go role document). -/
def namespacedResourceTypes : List (String × Bool) :=
  [ (resourceTypePod.id, true)
  , (resourceTypeSecret.id, true)
  , (resourceTypeConfigMap.id, true)
  , (resourceTypeServiceAccount.id, true)
  , (resourceTypeDeployment.id, true)
  , (resourceTypeStatefulSet.id, true)
  , (resourceTypeDaemonSet.id, true)
  , (resourceTypeRole.id, true)
  , (resourceTypeBinding.id, true)
  , (resourceTypeNamespace.id, false)
  , (resourceTypeNode.id, false)
  , (resourceTypeClusterRole.id, false)
  , (resourceTypeKubeUser.id, false)
  , (resourceTypeKubeGroup.id, false) ]

/-- Mirrors `isNamespacedType`: Go map lookup defaulting to `false`. -/
def isNamespacedType (resourceTypeId : String) : Bool :=
  match namespacedResourceTypes.lookup resourceTypeId with
  | some b => b
  | none => false

/-- The `standardVerbs` list used for wildcard expansion (secret.go role
document). -/
def standardVerbs : List String :=
  ["get", "list", "watch", "create", "update", "patch", "delete", "deletecollection"]

/-- Set insertion with list representation, mirroring `mapset.Add`
(first occurrence kept, duplicates ignored). -/
def setAdd (acc : List String) (v : String) : List String :=
  if v ∈ acc then acc else acc ++ [v]

/-- The scan loop of `determineGrantVerbs`: accumulates verbs into the set
until a wildcard (`"*"` or `""`) is seen, in which case it stops with the
expansion flag set (the Go `break`). -/
def addVerbsLoop : List String → List String → List String × Bool
  | acc, [] => (acc, false)
  | acc, v :: rest =>
    if v = "*" ∨ v = "" then (acc, true) else addVerbsLoop (setAdd acc v) rest

/-- Lexicographic at-most on character lists, the order `sort.Strings` uses
(byte order and character order agree on the ASCII verb strings involved). -/
def charListLe : List Char → List Char → Bool
  | [], _ => true
  | _ :: _, [] => false
  | a :: as, b :: bs => if a = b then charListLe as bs else decide (a < b)

/-- String comparison for `sort.Strings`. -/
def strLe (a b : String) : Bool := charListLe a.toList b.toList

/-- Mirrors `determineGrantVerbs` (secret.go role document): expands `"*"` or
`""` to the standard verb set, else deduplicates; returns the result sorted
(Go `sort.Strings`). -/
def determineGrantVerbs (ruleVerbs : List String) : List String :=
  let p := addVerbsLoop [] ruleVerbs
  let rv := if p.2 then standardVerbs.foldl setAdd [] else p.1
  if rv.length = 0 then [] else List.insertionSort (fun a b => strLe a b = true) rv

/-- Mirrors `formatResourceID` (helpers.go): fails only when the resource
type is missing (Go `nil`). -/
def formatResourceID (resourceType : Option ResourceType) (id : String) :
    Except String ResourceId :=
  match resourceType with
  | none => .error "resource type is required"
  | some rt => .ok ⟨rt.id, id⟩

/-- Mirrors `generatePermissionGrantsFromRules` (secret.go role document):
permission grants synthesized from a role's rules, with the Role/ClusterRole
as the granting principal. Rules with non-resource URLs are skipped, so are
rules whose effective verb set is empty and (apiGroup, resource) pairs
without a type mapping. The Go function's only return of its error result
is `return rv, nil`, hence the single `Except.ok`. -/
def generatePermissionGrantsFromRules (principalResource : ResourceId)
    (rules : List PolicyRule) (currentNamespace : String) :
    Except String (List Grant) :=
  Except.ok <| rules.flatMap fun rule =>
    if rule.nonResourceURLs.length > 0 then []
    else
      let grantVerbs := determineGrantVerbs rule.verbs
      if grantVerbs.length = 0 then []
      else
        rule.apiGroups.flatMap fun apiGroup =>
          rule.resources.flatMap fun res =>
            match mapKubeResourceToBatonType apiGroup res with
            | none => []
            | some targetResourceType =>
              let isTargetNamespaced := isNamespacedType targetResourceType.id
              if rule.resourceNames.length > 0 then
                rule.resourceNames.flatMap fun resourceName =>
                  let objectId :=
                    if currentNamespace ≠ "" ∧ isTargetNamespaced then
                      currentNamespace ++ "/" ++ resourceName
                    else
                      resourceName
                  match formatResourceID (some targetResourceType) objectId with
                  | .error _ => []
                  | .ok targetID =>
                    grantVerbs.map fun verb =>
                      NewGrant ⟨targetID.resourceType, targetID.resource⟩ verb principalResource
              else
                match formatResourceID (some targetResourceType) "*" with
                | .error _ => []
                | .ok targetID =>
                  grantVerbs.map fun verb =>
                    NewGrant ⟨targetID.resourceType, targetID.resource⟩ verb principalResource

/-- Mirrors the older `roleBuilder.Grants` (secret.go, first role document):
permission grants are emitted per (binding, subject, rule, apiGroup,
resource, verb), attributed to the bound subject, with the local standard
verb list expanding `"*"`. `roleNamespace` is the namespace parsed from the
role's resource id. -/
def roleGrantsOld (roleRules : List PolicyRule) (roleNamespace : String)
    (matchingBindings : List RoleBinding) : List Grant :=
  if matchingBindings.length = 0 then []
  else
    matchingBindings.flatMap fun binding =>
      binding.subjects.flatMap fun subject =>
        match mapSubjectToPrincipalID subject roleNamespace with
        | .error _ => []
        | .ok principalID =>
          roleRules.flatMap fun rule =>
            if rule.nonResourceURLs.length > 0 then []
            else
              rule.apiGroups.flatMap fun apiGroup =>
                rule.resources.flatMap fun res =>
                  match mapKubeResourceToBatonType apiGroup res with
                  | none => []
                  | some targetResourceType =>
                    let resourceSpecifier := "*"
                    match formatResourceID (some targetResourceType) resourceSpecifier with
                    | .error _ => []
                    | .ok targetID =>
                      rule.verbs.flatMap fun verb =>
                        if verb = "*" then
                          standardVerbs.map fun standardVerb =>
                            NewGrant principalID standardVerb targetID
                        else
                          [NewGrant principalID verb targetID]

/-- Mirrors the newest `roleBuilder.Grants` (secret.go, second role document)
after the role and its matching bindings have been fetched successfully:
membership grants for every (binding, subject) pair that resolves, followed
by the permission grants generated from the role's rules. -/
def roleGrantsNew (resource : ResourceId) (roleRules : List PolicyRule)
    (roleNamespace : String) (matchingBindings : List RoleBinding) :
    Except String (List Grant) :=
  let memberGrants := matchingBindings.flatMap fun binding =>
    binding.subjects.flatMap fun subject =>
      match mapSubjectToPrincipalID subject roleNamespace with
      | .error _ => []
      | .ok principalID => [NewGrant resource "member" principalID]
  match generatePermissionGrantsFromRules resource roleRules roleNamespace with
  | .error e => .error e
  | .ok permissionGrants => .ok (memberGrants ++ permissionGrants)

/-! Constants from common.go (second document). -/

def SubjectKindGroup : String := "Group"
def SubjectKindUser : String := "User"
def SubjectKindServiceAccount : String := "ServiceAccount"
def RBACAPIGroup : String := "rbac.authorization.k8s.io"
def RBACAPIGroupV1 : String := "rbac.authorization.k8s.io/v1"

/-- Does the character list contain `pat` as a contiguous subsequence? -/
def charsContain (pat : List Char) : List Char → Bool
  | [] => pat.isEmpty
  | c :: rest => pat.isPrefixOf (c :: rest) || charsContain pat rest

/-- `strings.Contains` on the embedded strings (substring test). -/
def strContains (s pat : String) : Bool :=
  charsContain pat.toList s.toList

/-- Mirrors `GrantRoleToSubject` (common.go, second document): a
ServiceAccount subject always yields a grant keyed by its own
namespace/name; a User or Group subject yields a grant only when its
apiGroup is the RBAC group (either spelling) and its name does not contain
`"system:"`; anything else is an error. -/
def GrantRoleToSubject (subject : Subject) (resource : ResourceId)
    (entName : String) : Except String Grant :=
  if subject.kind = SubjectKindServiceAccount then
    let saName := subject.ns ++ "/" ++ subject.name
    .ok (NewGrant resource entName ⟨resourceTypeServiceAccount.id, saName⟩)
  else if (subject.apiGroup = RBACAPIGroup ∨ subject.apiGroup = RBACAPIGroupV1) ∧
      ¬ strContains subject.name "system:" then
    if subject.kind = SubjectKindGroup then
      .ok (NewGrant resource entName ⟨resourceTypeKubeGroup.id, subject.name⟩)
    else if subject.kind = SubjectKindUser then
      .ok (NewGrant resource entName ⟨resourceTypeKubeUser.id, subject.name⟩)
    else
      .error "unsupported subject type"
  else
    .error "unsupported subject type"

/-- Mirrors the membership loop of the `GrantRoleToSubject`-based
`roleBuilder.Grants` variant (unnamed part_007, lines 174-193): zero
bindings short-circuits to no grants; a subject whose `GrantRoleToSubject`
fails is skipped (`continue`), never an error. -/
def roleGrantsMembership (resource : ResourceId)
    (matchingBindings : List RoleBinding) : List Grant :=
  if matchingBindings.length = 0 then []
  else
    matchingBindings.flatMap fun binding =>
      binding.subjects.flatMap fun subject =>
        match GrantRoleToSubject subject resource "member" with
        | .error _ => []
        | .ok subjectGrant => [subjectGrant]

/-! Binding cache (connector.go). -/

/-- The binding-cache fields of the `Kubernetes` connector struct. -/
structure KubernetesState where
  roleBindingsCache : List RoleBinding
  clusterRoleBindingsCache : List ClusterRoleBinding
  bindingsLoaded : Bool
deriving DecidableEq

/-- One cursor-driven enumeration loop of `loadBindingsCaches`: the upstream
pages are consumed in order, items accumulate, and the first failing page
aborts the whole enumeration with its error. -/
def fetchAllPages {α : Type} : List (Except String (List α)) → Except String (List α)
  | [] => .ok []
  | .error e :: _ => .error e
  | .ok items :: rest =>
    match fetchAllPages rest with
    | .error e => .error e
    | .ok acc => .ok (items ++ acc)

/-- Mirrors `Kubernetes.loadBindingsCaches` (connector.go): if the caches are
already loaded, nothing is fetched; otherwise all RoleBinding pages are
enumerated, then all ClusterRoleBinding pages, and only after both
enumerations succeed are the two cache slices and the loaded flag assigned.
An error on any page returns immediately, leaving the receiver state
untouched (the Go method writes no field before the final success block). -/
def loadBindingsCaches (st : KubernetesState)
    (rbPages : List (Except String (List RoleBinding)))
    (crbPages : List (Except String (List ClusterRoleBinding))) :
    KubernetesState × Option String :=
  if st.bindingsLoaded then (st, none)
  else
    match fetchAllPages rbPages with
    | .error e => (st, some ("listing role bindings: " ++ e))
    | .ok allRoleBindings =>
      match fetchAllPages crbPages with
      | .error e => (st, some ("listing cluster role bindings: " ++ e))
      | .ok allClusterRoleBindings =>
        ({ roleBindingsCache := allRoleBindings
         , clusterRoleBindingsCache := allClusterRoleBindings
         , bindingsLoaded := true }, none)

/-! KubeUser enumerator (kubeuser.go). -/

/-- The two upstream paginated list endpoints read by the KubeUser
enumerator, modelled as cursor → (items, continue token); an empty continue
token means the listing is exhausted. -/
structure ClusterPages where
  rbList : String → List RoleBinding × String
  crbList : String → List ClusterRoleBinding × String

/-- Mirrors `kubeUserBuilder.processUser`: the seen-set suppresses
duplicates; a fresh name is recorded and emitted. -/
def processUser (username : String) (seen : List String) :
    List String × List String :=
  if username ∈ seen then ([], seen) else ([username], seen ++ [username])

/-- Folds `processUser` over the User subjects of a page of bindings,
in order, threading the seen-set. -/
def processUserSubjects (subjectsLists : List (List Subject)) (seen : List String) :
    List String × List String :=
  subjectsLists.foldl
    (fun acc subjects =>
      subjects.foldl
        (fun acc2 subject =>
          if subject.kind = "User" then
            let p := processUser subject.name acc2.2
            (acc2.1 ++ p.1, p.2)
          else acc2)
        acc)
    ([], seen)

/-- Mirrors `kubeUserBuilder.List` (kubeuser.go). `token` is the page state
decoded from the pagination bag (`bag.PageToken()`), captured in the Go
variable `pageState` before either phase runs; the returned string is the
next page token (empty when the call says the enumeration is over). Control
flow note: the Go phase-2 `if` re-tests that stale `pageState`, so the two
phase blocks are mutually exclusive and the phase-1 completion path (which
rebuilds the bag with `"clusterrolebindings"` but never marshals it)
returns the empty token. Returns (user names emitted, next token, new
seen-set). -/
def kubeUserList (cluster : ClusterPages) (seen : List String) (token : String) :
    List String × String × List String :=
  let pageState := token
  if pageState = "" ∨ pageState = "rolebindings" then
    -- Phase 1: process RoleBindings
    let contTok := if pageState = "rolebindings" then pageState else ""
    let resp := cluster.rbList contTok
    let pr := processUserSubjects (resp.1.map (·.subjects)) seen
    if resp.2 ≠ "" then
      (pr.1, resp.2, pr.2)
    else
      -- Go: bag reset to "clusterrolebindings", but the phase-2 guard
      -- still sees pageState ∈ {"", "rolebindings"}, so it is skipped and
      -- the final return hands back the empty token.
      (pr.1, "", pr.2)
  else if pageState = "clusterrolebindings" then
    -- Phase 2: process ClusterRoleBindings (opts.Continue = bag.PageToken())
    let resp := cluster.crbList pageState
    let pr := processUserSubjects (resp.1.map (·.subjects)) seen
    if resp.2 ≠ "" then
      (pr.1, resp.2, pr.2)
    else
      (pr.1, "", pr.2)
  else
    -- Neither phase guard matches (e.g. a raw upstream continue token):
    -- fall through to the final return with no work done.
    ([], "", seen)

/-- Drives `kubeUserBuilder.List` the way the host sync does: start from the
empty token and call again with each returned token until it is empty.
`fuel` bounds the number of calls. Returns every user name emitted. -/
def driveKubeUserList (cluster : ClusterPages) :
    Nat → String → List String → List String
  | 0, _, _ => []
  | fuel + 1, token, seen =>
    let r := kubeUserList cluster seen token
    if r.2.1 = "" then r.1
    else r.1 ++ driveKubeUserList cluster fuel r.2.1 r.2.2

/-! Claim-scenario inputs and expected outputs (concrete data used by the
theorems below). -/

/-- Spec-side vocabulary: the internal types obtained by mapping every
(apiGroup, resource) pair of a rule's cross-product, unmapped pairs
dropped. -/
def mappedTargets (rule : PolicyRule) : List ResourceType :=
  rule.apiGroups.flatMap fun apiGroup =>
    rule.resources.filterMap fun res => mapKubeResourceToBatonType apiGroup res

def c2Principal : ResourceId := ⟨"role", "default/r1"⟩

def c2Rule : PolicyRule := ⟨[""], ["pods", "configmaps", "secrets"], [], ["get", "list"], []⟩

def c2Expected : List Grant :=
  [ NewGrant ⟨"pod", "*"⟩ "get" c2Principal
  , NewGrant ⟨"pod", "*"⟩ "list" c2Principal
  , NewGrant ⟨"configmap", "*"⟩ "get" c2Principal
  , NewGrant ⟨"configmap", "*"⟩ "list" c2Principal
  , NewGrant ⟨"secret", "*"⟩ "get" c2Principal
  , NewGrant ⟨"secret", "*"⟩ "list" c2Principal ]

/-- C2. For a rule with no non-resource URLs and no resourceNames, the
synthesizer emits exactly one permission edge per (effective verb, mapped
target) pair, each targeting the wildcard object `"*"` of that type; the
spec's concrete instance (verbs get,list × pods,configmaps,secrets in the
core group) yields exactly 2 × 3 = 6 such edges, independent of subjects. -/
def c3Principal : ResourceId := ⟨"role", "default/r1"⟩

def c3Rule : PolicyRule := ⟨[""], ["pods"], ["p1", "p2"], ["get"], []⟩
def c9Principal : ResourceId := ⟨"role", "ns1/r9"⟩

def c9Rule : PolicyRule := ⟨["custom.example.com", ""], ["widgets", "pods"], [], ["get"], []⟩
def c1Rule : PolicyRule := ⟨[""], ["pods"], [], ["*"], []⟩

def adminsSubject : Subject := ⟨"Group", "admins", "", "rbac.authorization.k8s.io"⟩

def c1Expected : List Grant :=
  standardVerbs.map fun v => NewGrant ⟨"kube_group", "admins"⟩ v ⟨"pod", "*"⟩
/-- A cluster with one single-page RoleBinding listing containing User
"alice" and one single-page ClusterRoleBinding listing containing User
"bob". -/
def c8Cluster : ClusterPages :=
  ⟨fun _ => ([⟨"ns-a", [⟨"User", "alice", "", ""⟩], ⟨"Role", "r"⟩⟩], ""),
   fun _ => ([⟨[⟨"User", "bob", "", ""⟩], ⟨"ClusterRole", "cr"⟩⟩], "")⟩

/-- Like `c8Cluster` but the RoleBinding listing has two pages (continue
token "tok2" after the first), the second containing User "carol". -/
def c8ClusterTwoPages : ClusterPages :=
  ⟨fun c =>
    if c = "" then ([⟨"ns-a", [⟨"User", "alice", "", ""⟩], ⟨"Role", "r"⟩⟩], "tok2")
    else ([⟨"ns-b", [⟨"User", "carol", "", ""⟩], ⟨"Role", "r"⟩⟩], ""),
   fun _ => ([⟨[⟨"User", "bob", "", ""⟩], ⟨"ClusterRole", "cr"⟩⟩], "")⟩

/-! ## Helper lemmas -/

theorem mem_foldl_setAdd (vs : List String) :
    ∀ (acc : List String) (x : String),
      x ∈ vs.foldl setAdd acc ↔ x ∈ acc ∨ x ∈ vs := by
  induction vs with
  | nil => simp
  | cons v rest ih =>
    intro acc x
    simp only [List.foldl_cons, ih, List.mem_cons, setAdd]
    by_cases hv : v ∈ acc
    · simp only [if_pos hv]
      constructor
      · rintro (h | h)
        exacts [Or.inl h, Or.inr (Or.inr h)]
      · rintro (h | rfl | h)
        exacts [Or.inl h, Or.inl hv, Or.inr h]
    · simp only [if_neg hv, List.mem_append, List.mem_singleton]
      tauto

theorem nodup_foldl_setAdd (vs : List String) :
    ∀ acc : List String, acc.Nodup → (vs.foldl setAdd acc).Nodup := by
  induction vs with
  | nil => exact fun _ h => h
  | cons v rest ih =>
    intro acc hacc
    simp only [List.foldl_cons]
    apply ih
    by_cases hv : v ∈ acc
    · simpa [setAdd, hv]
    · simp [setAdd, hv, List.nodup_append, hacc]

theorem addVerbsLoop_no_wildcard (vs : List String) :
    ∀ acc : List String, (∀ v ∈ vs, ¬(v = "*" ∨ v = "")) →
      addVerbsLoop acc vs = (vs.foldl setAdd acc, false) := by
  induction vs with
  | nil => intro acc _; rfl
  | cons v rest ih =>
    intro acc h
    have hv := h v (by simp)
    simp only [addVerbsLoop, if_neg hv, List.foldl_cons]
    exact ih _ fun w hw => h w (by simp [hw])

theorem addVerbsLoop_wildcard (vs : List String) :
    ∀ acc : List String, (∃ v ∈ vs, v = "*" ∨ v = "") →
      (addVerbsLoop acc vs).2 = true := by
  induction vs with
  | nil => simp
  | cons v rest ih =>
    intro acc h
    by_cases hv : v = "*" ∨ v = ""
    · simp [addVerbsLoop, hv]
    · have : ∃ w ∈ rest, w = "*" ∨ w = "" := by
        rcases h with ⟨w, hw, hws⟩
        rcases List.mem_cons.mp hw with rfl | hw'
        · exact absurd hws hv
        · exact ⟨w, hw', hws⟩
      simp [addVerbsLoop, hv, ih _ this]

theorem charListLe_total : ∀ as bs : List Char,
    charListLe as bs = true ∨ charListLe bs as = true := by
  intro as
  induction as with
  | nil => intro bs; left; rfl
  | cons a as ih =>
    intro bs
    cases bs with
    | nil => right; rfl
    | cons b bs =>
      by_cases hab : a = b
      · subst hab
        simpa [charListLe] using ih bs
      · rcases Ne.lt_or_lt hab with hlt | hlt
        · left; simp [charListLe, hab, hlt]
        · right; simp [charListLe, Ne.symm hab, hlt, not_lt_of_gt hlt]

theorem charListLe_trans : ∀ as bs cs : List Char,
    charListLe as bs = true → charListLe bs cs = true → charListLe as cs = true := by
  intro as
  induction as with
  | nil => intro bs cs _ _; rfl
  | cons a as ih =>
    intro bs cs hab hbc
    cases bs with
    | nil => simp [charListLe] at hab
    | cons b bs =>
      cases cs with
      | nil => simp [charListLe] at hbc
      | cons c cs =>
        by_cases h1 : a = b <;> by_cases h2 : b = c
        · subst h1; subst h2
          simp only [charListLe, if_pos rfl] at *
          exact ih bs cs hab hbc
        · subst h1
          simp only [charListLe, if_pos rfl] at hab
          simpa [charListLe, h2] using hbc
        · subst h2
          simpa [charListLe, h1] using hab
        · simp only [charListLe, if_neg h1, decide_eq_true_eq] at hab
          simp only [charListLe, if_neg h2, decide_eq_true_eq] at hbc
          have hac : a < c := lt_trans hab hbc
          simp [charListLe, ne_of_lt hac, hac]

instance : IsTotal String (fun a b => strLe a b = true) :=
  ⟨fun a b => charListLe_total a.toList b.toList⟩

instance : IsTrans String (fun a b => strLe a b = true) :=
  ⟨fun a b c => charListLe_trans a.toList b.toList c.toList⟩

/-! ## C4: verb normalization -/

/-- C4. For every input verb list, `determineGrantVerbs` returns: if any
entry equals `"*"` or `""`, exactly the 8-element standard verb set sorted,
entirely replacing any other verbs listed in the same rule; otherwise the
deduplicated set of the listed verbs, sorted; and for an empty input list it
returns no verbs. -/
theorem c4_determineGrantVerbs_spec :
    (∀ vs : List String, (∃ v ∈ vs, v = "*" ∨ v = "") →
        determineGrantVerbs vs =
          ["create", "delete", "deletecollection", "get", "list", "patch", "update", "watch"])
  ∧ (∀ vs : List String, (∀ v ∈ vs, ¬(v = "*" ∨ v = "")) →
        List.Sorted (fun a b => strLe a b = true) (determineGrantVerbs vs)
      ∧ (determineGrantVerbs vs).Nodup
      ∧ (∀ x, x ∈ determineGrantVerbs vs ↔ x ∈ vs))
  ∧ determineGrantVerbs [] = [] := by
  refine ⟨?_, ?_, rfl⟩
  · intro vs h
    have h2 := addVerbsLoop_wildcard vs [] h
    rcases hp : addVerbsLoop [] vs with ⟨acc, flag⟩
    rw [hp] at h2
    have h3 : flag = true := h2
    subst h3
    simp only [determineGrantVerbs, hp]
    rfl
  · intro vs h
    have h1 := addVerbsLoop_no_wildcard vs [] h
    simp only [determineGrantVerbs, h1, Bool.false_eq_true, if_false]
    set rv := vs.foldl setAdd [] with hrv
    have hmem : ∀ x, x ∈ rv ↔ x ∈ vs := by
      intro x; simpa using mem_foldl_setAdd vs [] x
    have hnodup : rv.Nodup := nodup_foldl_setAdd vs [] (by simp)
    by_cases hz : rv.length = 0
    · have hnil : rv = [] := List.length_eq_zero.mp hz
      rw [if_pos hz]
      refine ⟨List.sorted_nil, List.nodup_nil, ?_⟩
      intro x
      simp only [List.not_mem_nil, false_iff]
      intro hx
      have := (hmem x).mpr hx
      simp [hnil] at this
    · have hperm := List.perm_insertionSort (fun a b => strLe a b = true) rv
      rw [if_neg hz]
      refine ⟨List.sorted_insertionSort _ rv, hperm.nodup_iff.mpr hnodup, ?_⟩
      intro x
      rw [hperm.mem_iff, hmem]

/-- Witness for C4 at concrete inputs. -/
theorem c4_witness :
    (∃ v ∈ ["list", "*", "get"], v = "*" ∨ v = "")
  ∧ determineGrantVerbs ["list", "*", "get"] =
      ["create", "delete", "deletecollection", "get", "list", "patch", "update", "watch"]
  ∧ (∀ v ∈ ["get", "watch", "get"], ¬(v = "*" ∨ v = ""))
  ∧ (∀ x, x ∈ determineGrantVerbs ["get", "watch", "get"] ↔ x ∈ ["get", "watch", "get"]) :=
  ⟨by decide, c4_determineGrantVerbs_spec.1 ["list", "*", "get"] (by decide),
   by decide, (c4_determineGrantVerbs_spec.2.1 ["get", "watch", "get"] (by decide)).2.2⟩

/-! ## C5: subject resolution -/

/-- C5. A ServiceAccount subject resolves to `subject.namespace/name` when
its namespace is non-empty, else `bindingNamespace/name`, and fails exactly
when both are empty; User and Group subjects resolve to their names
verbatim as cluster-scoped identities; any other kind fails with an
unsupported-kind error. -/
theorem c5_mapSubjectToPrincipalID_spec :
    (∀ (s : Subject) (bindingNamespace : String),
        s.kind = "ServiceAccount" → s.ns ≠ "" →
        mapSubjectToPrincipalID s bindingNamespace =
          .ok ⟨"service_account", s.ns ++ "/" ++ s.name⟩)
  ∧ (∀ (s : Subject) (bindingNamespace : String),
        s.kind = "ServiceAccount" → s.ns = "" → bindingNamespace ≠ "" →
        mapSubjectToPrincipalID s bindingNamespace =
          .ok ⟨"service_account", bindingNamespace ++ "/" ++ s.name⟩)
  ∧ (∀ s : Subject, s.kind = "ServiceAccount" → s.ns = "" →
        mapSubjectToPrincipalID s "" =
          .error "service account subject must specify a namespace")
  ∧ (∀ (s : Subject) (bindingNamespace : String), s.kind = "User" →
        mapSubjectToPrincipalID s bindingNamespace = .ok ⟨"kube_user", s.name⟩)
  ∧ (∀ (s : Subject) (bindingNamespace : String), s.kind = "Group" →
        mapSubjectToPrincipalID s bindingNamespace = .ok ⟨"kube_group", s.name⟩)
  ∧ (∀ (s : Subject) (bindingNamespace : String),
        s.kind ≠ "ServiceAccount" → s.kind ≠ "User" → s.kind ≠ "Group" →
        mapSubjectToPrincipalID s bindingNamespace =
          .error ("unsupported subject kind: " ++ s.kind)) := by
  refine ⟨?_, ?_, ?_, ?_, ?_, ?_⟩
  · intro s bns h1 h2
    simp [mapSubjectToPrincipalID, h1, h2, resourceTypeServiceAccount]
  · intro s bns h1 h2 h3
    simp [mapSubjectToPrincipalID, h1, h2, h3, resourceTypeServiceAccount]
  · intro s h1 h2
    simp [mapSubjectToPrincipalID, h1, h2]
  · intro s bns h1
    simp [mapSubjectToPrincipalID, h1, resourceTypeKubeUser]
  · intro s bns h1
    simp [mapSubjectToPrincipalID, h1, resourceTypeKubeGroup]
  · intro s bns h1 h2 h3
    simp [mapSubjectToPrincipalID, h1, h2, h3]

/-- Witness for C5: the spec's namespace-inheritance example, plus a
User name containing `":"` passed through verbatim. -/
theorem c5_witness :
    mapSubjectToPrincipalID ⟨"ServiceAccount", "sys", "", ""⟩ "ns-a" =
      .ok ⟨"service_account", "ns-a/sys"⟩
  ∧ mapSubjectToPrincipalID ⟨"ServiceAccount", "sys", "ns-b", ""⟩ "ns-a" =
      .ok ⟨"service_account", "ns-b/sys"⟩
  ∧ mapSubjectToPrincipalID ⟨"User", "system:masters", "", ""⟩ "ns-a" =
      .ok ⟨"kube_user", "system:masters"⟩ :=
  ⟨c5_mapSubjectToPrincipalID_spec.2.1 ⟨"ServiceAccount", "sys", "", ""⟩ "ns-a" rfl rfl
     (by decide),
   c5_mapSubjectToPrincipalID_spec.1 ⟨"ServiceAccount", "sys", "ns-b", ""⟩ "ns-a" rfl
     (by decide),
   c5_mapSubjectToPrincipalID_spec.2.2.2.1 ⟨"User", "system:masters", "", ""⟩ "ns-a" rfl⟩

/-! ## C2, C3, C9: permission-grant synthesis from rules -/

theorem flatMap_of_filterMap {α β γ : Type} (l : List α) (f : α → Option β) (h : β → List γ) :
    (l.filterMap f).flatMap h =
      l.flatMap fun a => match f a with | none => [] | some b => h b := by
  induction l with
  | nil => rfl
  | cons a l ih =>
    cases hfa : f a
    · simp [List.filterMap_cons, hfa, ih]
    · simp [List.filterMap_cons, hfa, ih]

theorem flatMap_const_nil {α γ : Type} (l : List α) :
    (l.flatMap fun _ => ([] : List γ)) = [] := by
  induction l <;> simp_all

theorem c2_generate_wildcard_spec :
    (∀ (p : ResourceId) (ns : String) (rule : PolicyRule),
        rule.nonResourceURLs = [] → rule.resourceNames = [] →
        generatePermissionGrantsFromRules p [rule] ns =
          .ok ((mappedTargets rule).flatMap fun t =>
            (determineGrantVerbs rule.verbs).map fun verb => NewGrant ⟨t.id, "*"⟩ verb p))
  ∧ generatePermissionGrantsFromRules c2Principal [c2Rule] "default" = .ok c2Expected
  ∧ c2Expected.length = 2 * 3 * 1
  ∧ (∀ g ∈ c2Expected, g.resource.resource = "*") := by
  refine ⟨?_, by rfl, by rfl, by decide⟩
  intro p ns rule h1 h2
  have hnru : ¬ (rule.nonResourceURLs.length > 0) := by simp [h1]
  have hrn : ¬ (rule.resourceNames.length > 0) := by simp [h2]
  simp only [generatePermissionGrantsFromRules, List.flatMap_cons, List.flatMap_nil,
    List.append_nil, if_neg hnru]
  by_cases hgv : (determineGrantVerbs rule.verbs).length = 0
  · rw [if_pos hgv]
    have hnil : determineGrantVerbs rule.verbs = [] := List.length_eq_zero.mp hgv
    simp [hnil, flatMap_const_nil]
  · rw [if_neg hgv]
    congr 1
    rw [mappedTargets, List.flatMap_assoc]
    apply List.flatMap_congr
    intro g _
    rw [flatMap_of_filterMap]
    apply List.flatMap_congr
    intro r _
    cases hm : mapKubeResourceToBatonType g r
    · rfl
    · simp only [if_neg hrn]
      rfl

/-- Witness for C2: the universal part applied at the spec's concrete rule. -/
theorem c2_witness :
    generatePermissionGrantsFromRules c2Principal [c2Rule] "default" =
      .ok ((mappedTargets c2Rule).flatMap fun t =>
        (determineGrantVerbs c2Rule.verbs).map fun verb => NewGrant ⟨t.id, "*"⟩ verb c2Principal) :=
  c2_generate_wildcard_spec.1 c2Principal "default" c2Rule rfl rfl

/-- C3. For a rule with non-empty resourceNames, the synthesizer emits one
permission edge per (effective verb, mapped type, resource name) triple
instead of a wildcard edge; the target object key is
`roleNamespace ++ "/" ++ name` when the target type is namespaced and a
namespace context exists, else the bare name. -/
theorem c3_generate_resourceNames_spec :
    ∀ (p : ResourceId) (ns : String) (rule : PolicyRule),
      rule.nonResourceURLs = [] → rule.resourceNames ≠ [] →
      generatePermissionGrantsFromRules p [rule] ns =
        .ok ((mappedTargets rule).flatMap fun t =>
          rule.resourceNames.flatMap fun nm =>
            (determineGrantVerbs rule.verbs).map fun verb =>
              NewGrant
                ⟨t.id, if ns ≠ "" ∧ isNamespacedType t.id then ns ++ "/" ++ nm else nm⟩
                verb p) := by
  intro p ns rule h1 h2
  have hnru : ¬ (rule.nonResourceURLs.length > 0) := by simp [h1]
  have hrn : rule.resourceNames.length > 0 := List.length_pos.mpr h2
  simp only [generatePermissionGrantsFromRules, List.flatMap_cons, List.flatMap_nil,
    List.append_nil, if_neg hnru]
  by_cases hgv : (determineGrantVerbs rule.verbs).length = 0
  · rw [if_pos hgv]
    have hnil : determineGrantVerbs rule.verbs = [] := List.length_eq_zero.mp hgv
    simp [hnil, flatMap_const_nil]
  · rw [if_neg hgv]
    congr 1
    rw [mappedTargets, List.flatMap_assoc]
    apply List.flatMap_congr
    intro g _
    rw [flatMap_of_filterMap]
    apply List.flatMap_congr
    intro r _
    cases hm : mapKubeResourceToBatonType g r
    · rfl
    · simp only [if_pos hrn]
      rfl

/-- Witness for C3: a Role in namespace "default" granting on named pods
gets namespaced keys, a ClusterRole (empty namespace context) gets the bare
name. -/
theorem c3_witness :
    generatePermissionGrantsFromRules c3Principal [c3Rule] "default" =
      .ok [ NewGrant ⟨"pod", "default/p1"⟩ "get" c3Principal
          , NewGrant ⟨"pod", "default/p2"⟩ "get" c3Principal ]
  ∧ generatePermissionGrantsFromRules ⟨"cluster_role", "cr"⟩ [c3Rule] "" =
      .ok [ NewGrant ⟨"pod", "p1"⟩ "get" ⟨"cluster_role", "cr"⟩
          , NewGrant ⟨"pod", "p2"⟩ "get" ⟨"cluster_role", "cr"⟩ ] :=
  ⟨(c3_generate_resourceNames_spec c3Principal "default" c3Rule rfl (by decide)).trans
     (by rfl),
   (c3_generate_resourceNames_spec ⟨"cluster_role", "cr"⟩ "" c3Rule rfl (by decide)).trans
     (by rfl)⟩

/-- C9. Wildcard resource kinds, the wildcard API group and unknown API
groups have no type mapping; unmapped (apiGroup, resource) pairs contribute
zero permission edges while mappable pairs in the same rule still produce
theirs, and permission-grant generation always returns success. -/
theorem c9_unmapped_skip_spec :
    (∀ g : String, mapKubeResourceToBatonType g "*" = none)
  ∧ (∀ r : String, mapKubeResourceToBatonType "*" r = none)
  ∧ (∀ g r : String,
        g ∉ ["", "core", "apps", "apps/v1", "rbac.authorization.k8s.io",
             "rbac.authorization.k8s.io/v1", "user.openshift.io", "user.openshift.io/v1"] →
        mapKubeResourceToBatonType g r = none)
  ∧ (∀ (p : ResourceId) (rules : List PolicyRule) (ns : String),
        (generatePermissionGrantsFromRules p rules ns).isOk = true)
  ∧ generatePermissionGrantsFromRules c9Principal [c9Rule] "ns1" =
      .ok [NewGrant ⟨"pod", "*"⟩ "get" c9Principal] := by
  refine ⟨?_, ?_, ?_, ?_, by rfl⟩
  · intro g
    by_cases h1 : g = "" ∨ g = "core"
    · simp only [mapKubeResourceToBatonType, if_pos h1]; rfl
    by_cases h2 : g = "apps" ∨ g = "apps/v1"
    · simp only [mapKubeResourceToBatonType, if_neg h1, if_pos h2]; rfl
    by_cases h3 : g = "rbac.authorization.k8s.io" ∨ g = "rbac.authorization.k8s.io/v1"
    · simp only [mapKubeResourceToBatonType, if_neg h1, if_neg h2, if_pos h3]; rfl
    by_cases h4 : g = "user.openshift.io" ∨ g = "user.openshift.io/v1"
    · simp only [mapKubeResourceToBatonType, if_neg h1, if_neg h2, if_neg h3, if_pos h4]; rfl
    · simp only [mapKubeResourceToBatonType, if_neg h1, if_neg h2, if_neg h3, if_neg h4]
  · intro r
    rfl
  · intro g r hg
    simp only [List.mem_cons, List.not_mem_nil, or_false, not_or] at hg
    obtain ⟨n1, n2, n3, n4, n5, n6, n7, n8⟩ := hg
    have h1 : ¬(g = "" ∨ g = "core") := by simp [n1, n2]
    have h2 : ¬(g = "apps" ∨ g = "apps/v1") := by simp [n3, n4]
    have h3 : ¬(g = "rbac.authorization.k8s.io" ∨ g = "rbac.authorization.k8s.io/v1") := by
      simp [n5, n6]
    have h4 : ¬(g = "user.openshift.io" ∨ g = "user.openshift.io/v1") := by simp [n7, n8]
    simp only [mapKubeResourceToBatonType, if_neg h1, if_neg h2, if_neg h3, if_neg h4]
  · intro p rules ns
    rfl

/-- Witness for C9: the unknown-group case applied at the spec's CRD
example. -/
theorem c9_witness :
    mapKubeResourceToBatonType "custom.example.com" "widgets" = none :=
  c9_unmapped_skip_spec.2.2.1 "custom.example.com" "widgets" (by decide)

/-! ## C1: wildcard verbs through the binding-attributed Grants path -/

/-- C1. For a Role whose rule set is the single rule
`{verbs: ["*"], apiGroups: [""], resources: ["pods"]}`, referenced by
bindings whose only subject is the Group "admins": with one binding the
Grants call emits exactly the 8 standard-verb permission edges, each
linking the "admins" group identity to the pod-type wildcard target `"*"`;
and for any non-empty set of such bindings the set of distinct permission
edges is that same 8-element set, independent of how many bindings exist. -/
theorem c1_wildcard_role_spec :
    (∀ (roleNamespace : String) (b : RoleBinding), b.subjects = [adminsSubject] →
        roleGrantsOld [c1Rule] roleNamespace [b] = c1Expected)
  ∧ (∀ (roleNamespace : String) (bs : List RoleBinding), bs ≠ [] →
        (∀ b ∈ bs, b.subjects = [adminsSubject]) →
        ∀ g : Grant, g ∈ roleGrantsOld [c1Rule] roleNamespace bs ↔ g ∈ c1Expected)
  ∧ c1Expected.length = 8
  ∧ c1Expected.Nodup
  ∧ (∀ g ∈ c1Expected, g.resource = ⟨"kube_group", "admins"⟩ ∧ g.principal = ⟨"pod", "*"⟩)
  ∧ (∀ v ∈ standardVerbs, ∃ g ∈ c1Expected, g.entName = v) := by
  have hsingle : ∀ (roleNamespace : String) (b : RoleBinding),
      b.subjects = [adminsSubject] →
      roleGrantsOld [c1Rule] roleNamespace [b] = c1Expected := by
    intro ns b hb
    simp only [roleGrantsOld, List.length_cons, List.length_nil, List.flatMap_cons,
      List.flatMap_nil, List.append_nil, hb]
    rfl
  refine ⟨hsingle, ?_, by decide, by decide, by decide, by decide⟩
  intro ns bs hne hall g
  have hexp : roleGrantsOld [c1Rule] ns bs = bs.flatMap fun _ => c1Expected := by
    unfold roleGrantsOld
    rw [if_neg (by simp [hne])]
    apply List.flatMap_congr
    intro b hbmem
    have hb := hall b hbmem
    simp only [hb]
    rfl
  rw [hexp, List.mem_flatMap]
  constructor
  · rintro ⟨b, _, hg⟩
    exact hg
  · intro hg
    rcases List.exists_mem_of_ne_nil bs hne with ⟨b, hb⟩
    exact ⟨b, hb, hg⟩

/-- Witness for C1: one binding gives exactly the 8 edges; two bindings
give the same distinct-edge set. -/
theorem c1_witness :
    roleGrantsOld [c1Rule] "ns1" [⟨"ns1", [adminsSubject], ⟨"Role", "r"⟩⟩] = c1Expected
  ∧ (∀ g : Grant,
        g ∈ roleGrantsOld [c1Rule] "ns1"
          [ ⟨"ns1", [adminsSubject], ⟨"Role", "r"⟩⟩
          , ⟨"ns1", [adminsSubject], ⟨"Role", "r2"⟩⟩ ] ↔ g ∈ c1Expected) :=
  ⟨c1_wildcard_role_spec.1 "ns1" ⟨"ns1", [adminsSubject], ⟨"Role", "r"⟩⟩ rfl,
   c1_wildcard_role_spec.2.1 "ns1"
     [ ⟨"ns1", [adminsSubject], ⟨"Role", "r"⟩⟩
     , ⟨"ns1", [adminsSubject], ⟨"Role", "r2"⟩⟩ ] (by decide) (by decide)⟩

/-! ## C6: zero bindings -/

/-- C6. With zero matching bindings the newest Role Grants path succeeds,
emits zero membership edges, and returns exactly the permission edges the
role's own rules generate, unaffected by the absence of bindings. -/
theorem c6_no_bindings_spec :
    (∀ (resource : ResourceId) (roleRules : List PolicyRule) (roleNamespace : String),
        roleGrantsNew resource roleRules roleNamespace [] =
          generatePermissionGrantsFromRules resource roleRules roleNamespace)
  ∧ (∀ (resource : ResourceId) (roleRules : List PolicyRule) (roleNamespace : String),
        (roleGrantsNew resource roleRules roleNamespace []).isOk = true)
  ∧ (∀ (resource : ResourceId) (roleRules : List PolicyRule) (roleNamespace : String)
        (matchingBindings : List RoleBinding),
        ∃ memberGrants permissionGrants : List Grant,
          roleGrantsNew resource roleRules roleNamespace matchingBindings =
            .ok (memberGrants ++ permissionGrants)
        ∧ generatePermissionGrantsFromRules resource roleRules roleNamespace =
            .ok permissionGrants
        ∧ (matchingBindings = [] → memberGrants = [])) :=
  ⟨fun _ _ _ => rfl, fun _ _ _ => rfl,
   fun _ _ _ bs => ⟨_, _, rfl, rfl, fun h => by subst h; rfl⟩⟩

/-- Witness for C6 at a concrete role: zero bindings decompose the result
into empty membership grants plus exactly the rule-derived permission
grants. -/
theorem c6_witness :
    ∃ memberGrants permissionGrants : List Grant,
      roleGrantsNew ⟨"role", "ns1/r"⟩ [c1Rule] "ns1" [] = .ok (memberGrants ++ permissionGrants)
    ∧ generatePermissionGrantsFromRules ⟨"role", "ns1/r"⟩ [c1Rule] "ns1" = .ok permissionGrants
    ∧ (([] : List RoleBinding) = [] → memberGrants = []) :=
  c6_no_bindings_spec.2.2 ⟨"role", "ns1/r"⟩ [c1Rule] "ns1" []

/-! ## C7: binding cache load -/

/-- C7. The binding-cache bulk load: a failure on any page of either
enumeration returns the error with the state (caches and loaded flag)
unchanged, so no partial cache is ever published and the next call retries
from scratch; only after every page of both enumerations succeeds are the
two slices and the loaded flag set; and once loaded, subsequent calls do no
further loading regardless of what the upstream would serve. All-page
success accumulates exactly the concatenation of the pages. -/
theorem c7_binding_cache_spec :
    (∀ (st : KubernetesState) (rbPages : List (Except String (List RoleBinding)))
        (crbPages : List (Except String (List ClusterRoleBinding))),
        st.bindingsLoaded = true → loadBindingsCaches st rbPages crbPages = (st, none))
  ∧ (∀ (st : KubernetesState) rbPages crbPages (e : String),
        st.bindingsLoaded = false → fetchAllPages rbPages = .error e →
        loadBindingsCaches st rbPages crbPages = (st, some ("listing role bindings: " ++ e)))
  ∧ (∀ (st : KubernetesState) rbPages crbPages (rbs : List RoleBinding) (e : String),
        st.bindingsLoaded = false → fetchAllPages rbPages = .ok rbs →
        fetchAllPages crbPages = .error e →
        loadBindingsCaches st rbPages crbPages =
          (st, some ("listing cluster role bindings: " ++ e)))
  ∧ (∀ (st : KubernetesState) rbPages crbPages (rbs : List RoleBinding)
        (crbs : List ClusterRoleBinding),
        st.bindingsLoaded = false → fetchAllPages rbPages = .ok rbs →
        fetchAllPages crbPages = .ok crbs →
        loadBindingsCaches st rbPages crbPages = (⟨rbs, crbs, true⟩, none))
  ∧ (∀ pages : List (List RoleBinding),
        fetchAllPages (pages.map Except.ok) = .ok pages.flatten) := by
  refine ⟨?_, ?_, ?_, ?_, ?_⟩
  · intro st rbPages crbPages h
    simp [loadBindingsCaches, h]
  · intro st rbPages crbPages e h1 h2
    simp [loadBindingsCaches, h1, h2]
  · intro st rbPages crbPages rbs e h1 h2 h3
    simp [loadBindingsCaches, h1, h2, h3]
  · intro st rbPages crbPages rbs crbs h1 h2 h3
    simp [loadBindingsCaches, h1, h2, h3]
  · intro pages
    induction pages with
    | nil => rfl
    | cons pg rest ih => simp [fetchAllPages, ih]

/-- Witness for C7 at concrete states and pages: a failing page leaves the
empty unloaded state unchanged; full success publishes the accumulated
caches and the flag; a loaded state ignores the upstream entirely. -/
theorem c7_witness :
    loadBindingsCaches ⟨[], [], false⟩ [.error "boom"] [] =
      (⟨[], [], false⟩, some "listing role bindings: boom")
  ∧ loadBindingsCaches ⟨[], [], false⟩
      [.ok [⟨"ns-a", [], ⟨"Role", "r"⟩⟩], .ok []] [.ok [⟨[], ⟨"ClusterRole", "cr"⟩⟩]] =
      (⟨[⟨"ns-a", [], ⟨"Role", "r"⟩⟩], [⟨[], ⟨"ClusterRole", "cr"⟩⟩], true⟩, none)
  ∧ loadBindingsCaches ⟨[], [], true⟩ [.error "down"] [.error "down"] =
      (⟨[], [], true⟩, none) :=
  ⟨c7_binding_cache_spec.2.1 ⟨[], [], false⟩ [.error "boom"] [] "boom" rfl rfl,
   c7_binding_cache_spec.2.2.2.1 ⟨[], [], false⟩
     [.ok [⟨"ns-a", [], ⟨"Role", "r"⟩⟩], .ok []] [.ok [⟨[], ⟨"ClusterRole", "cr"⟩⟩]]
     [⟨"ns-a", [], ⟨"Role", "r"⟩⟩] [⟨[], ⟨"ClusterRole", "cr"⟩⟩] rfl rfl rfl,
   c7_binding_cache_spec.1 ⟨[], [], true⟩ [.error "down"] [.error "down"] rfl⟩

/-! ## C10: GrantRoleToSubject-based membership -/

/-- C10. In the `GrantRoleToSubject` membership path: a User or Group
subject yields a grant exactly when its apiGroup is
`rbac.authorization.k8s.io` (either spelling) and its name does not contain
`"system:"`; a ServiceAccount subject always yields a grant keyed by the
subject's own `namespace/name` with no inheritance from the binding (an
empty subject namespace gives a key beginning with `"/"`); and in the
caller's loop a failing subject is skipped without error while the rest of
the binding still produces its grants. -/
theorem c10_grant_role_to_subject_spec :
    (∀ (s : Subject) (res : ResourceId) (entName : String),
        (s.kind = "User" ∨ s.kind = "Group") →
        ((∃ g, GrantRoleToSubject s res entName = .ok g) ↔
          ((s.apiGroup = RBACAPIGroup ∨ s.apiGroup = RBACAPIGroupV1) ∧
            ¬ strContains s.name "system:")))
  ∧ (∀ (s : Subject) (res : ResourceId) (entName : String), s.kind = "ServiceAccount" →
        GrantRoleToSubject s res entName =
          .ok (NewGrant res entName ⟨"service_account", s.ns ++ "/" ++ s.name⟩))
  ∧ (∀ (s : Subject) (res : ResourceId) (entName : String),
        s.kind = "ServiceAccount" → s.ns = "" →
        GrantRoleToSubject s res entName =
          .ok (NewGrant res entName ⟨"service_account", "/" ++ s.name⟩))
  ∧ roleGrantsMembership ⟨"role", "ns1/r"⟩
      [⟨"ns1",
        [ ⟨"User", "eve", "", ""⟩
        , ⟨"User", "system:kube-proxy", "", "rbac.authorization.k8s.io"⟩
        , ⟨"Group", "admins", "", "rbac.authorization.k8s.io"⟩
        , ⟨"ServiceAccount", "worker", "", ""⟩ ],
        ⟨"Role", "r"⟩⟩] =
      [ NewGrant ⟨"role", "ns1/r"⟩ "member" ⟨"kube_group", "admins"⟩
      , NewGrant ⟨"role", "ns1/r"⟩ "member" ⟨"service_account", "/worker"⟩ ] := by
  refine ⟨?_, ?_, ?_, by rfl⟩
  · intro s res entName hk
    have hsa : ¬ s.kind = "ServiceAccount" := by
      rcases hk with hk | hk <;> simp [hk]
    by_cases hc : (s.apiGroup = RBACAPIGroup ∨ s.apiGroup = RBACAPIGroupV1) ∧
        ¬ strContains s.name "system:"
    · rcases hk with hk | hk <;>
        simp [GrantRoleToSubject, hk, hsa, hc, SubjectKindServiceAccount, SubjectKindGroup,
          SubjectKindUser, Bool.not_eq_true]
    · have hc2 : ¬ ((s.apiGroup = RBACAPIGroup ∨ s.apiGroup = RBACAPIGroupV1) ∧
          strContains s.name "system:" = false) := by
        simpa [Bool.not_eq_true] using hc
      rcases hk with hk | hk <;>
        simp [GrantRoleToSubject, hk, hsa, hc2, SubjectKindServiceAccount, SubjectKindGroup,
          SubjectKindUser, Bool.not_eq_true]
  · intro s res entName hk
    simp [GrantRoleToSubject, hk, SubjectKindServiceAccount, resourceTypeServiceAccount]
  · intro s res entName hk hns
    simp [GrantRoleToSubject, hk, hns, SubjectKindServiceAccount, resourceTypeServiceAccount]

/-- Witness for C10 at concrete subjects: a User with the RBAC apiGroup and
a plain name is granted; a Group with an empty apiGroup is not; a
ServiceAccount with an empty namespace gets the `"/name"` key. -/
theorem c10_witness :
    (∃ g, GrantRoleToSubject ⟨"User", "alice", "", "rbac.authorization.k8s.io"⟩
        ⟨"role", "ns1/r"⟩ "member" = .ok g)
  ∧ ¬ (∃ g, GrantRoleToSubject ⟨"Group", "devs", "", ""⟩ ⟨"role", "ns1/r"⟩ "member" = .ok g)
  ∧ GrantRoleToSubject ⟨"ServiceAccount", "worker", "", ""⟩ ⟨"role", "ns1/r"⟩ "member" =
      .ok (NewGrant ⟨"role", "ns1/r"⟩ "member" ⟨"service_account", "/worker"⟩) :=
  ⟨(c10_grant_role_to_subject_spec.1 ⟨"User", "alice", "", "rbac.authorization.k8s.io"⟩
      ⟨"role", "ns1/r"⟩ "member" (Or.inl rfl)).mpr (by decide),
   fun h =>
     absurd ((c10_grant_role_to_subject_spec.1 ⟨"Group", "devs", "", ""⟩
        ⟨"role", "ns1/r"⟩ "member" (Or.inr rfl)).mp h).1 (by decide),
   c10_grant_role_to_subject_spec.2.2.1 ⟨"ServiceAccount", "worker", "", ""⟩
     ⟨"role", "ns1/r"⟩ "member" rfl rfl⟩

/-! ## C8: KubeUser two-phase enumeration -/

/-- C8 (evaluation of the code at the failing inputs). Driving
`kubeUserBuilder.List` from the empty page token: on `c8Cluster` the
enumeration ends (empty next token) after phase 1 with only "alice" — the
User "bob", present in a ClusterRoleBinding, is never emitted because the
phase-2 guard re-tests the page state captured before phase 1 and the
rebuilt pagination bag is never marshalled; on `c8ClusterTwoPages` the
second call receives the raw upstream continue token, matches neither
phase guard, and aborts the enumeration, so even RoleBindings are not
drained. The phase-2 block itself is reachable only from the token
`"clusterrolebindings"`, which no call ever returns. -/
theorem c8_kubeuser_code_eval :
    driveKubeUserList c8Cluster 5 "" [] = ["alice"]
  ∧ "bob" ∉ driveKubeUserList c8Cluster 5 "" []
  ∧ kubeUserList c8Cluster [] "" = (["alice"], "", ["alice"])
  ∧ driveKubeUserList c8ClusterTwoPages 5 "" [] = ["alice"]
  ∧ kubeUserList c8ClusterTwoPages [] "tok2" = ([], "", [])
  ∧ kubeUserList c8Cluster [] "clusterrolebindings" = (["bob"], "", ["bob"]) :=
  ⟨rfl, by decide, rfl, rfl, rfl, rfl⟩

end BatonK8s
